import Mathlib

/-!
Shallow embedding of the WGSAnalysis batch drivers
(`snippy_snakemake/snippy_analysis.py` and `spades_analysis/spades_analysis.py`):
a finite filesystem model, Python string-operation semantics over `List Char`,
a subprocess oracle, and the per-sample driver loops, together with theorems
settling the specification's claims about them.
-/

namespace WGS

/-- Whitespace characters removed by Python `str.strip()`. -/
def isSpaceChar (c : Char) : Bool :=
  c = ' ' || c = '\t' || c = '\n' || c = '\r' || c = '\x0b' || c = '\x0c'

/-- Python `str.strip()`. -/
def pyStrip (s : String) : String :=
  ⟨((s.data.dropWhile isSpaceChar).reverse.dropWhile isSpaceChar).reverse⟩

/-- Python `s.startswith(p)`. -/
def pyStartsWith (s p : String) : Bool := p.data.isPrefixOf s.data

/-- Python `s.endswith(p)`. -/
def pyEndsWith (s p : String) : Bool := p.data.isSuffixOf s.data

/-- Scanner for Python `str.replace`: with `skip = 0`, when `old` matches at
the current position, emit `new` and skip the matched characters (via the
counter); scanning recurses structurally on the tail. Used only with a
nonempty `old`. -/
def replGo (old new : List Char) : Nat → List Char → List Char
  | _, [] => []
  | k+1, _ :: rest => replGo old new k rest
  | 0, c :: rest =>
      if old.isPrefixOf (c :: rest) then new ++ replGo old new (old.length - 1) rest
      else c :: replGo old new 0 rest

/-- Python `s.replace(old, new)` for a nonempty `old`: replace every
non-overlapping occurrence, scanning left to right. -/
def pyReplace (s old new : String) : String := ⟨replGo old.data new.data 0 s.data⟩

/-- Lexicographic (code-point) order on character lists, Python string `<=`. -/
def lexLe : List Char → List Char → Bool
  | [], _ => true
  | _ :: _, [] => false
  | a :: as, b :: bs => if a = b then lexLe as bs else decide (a < b)

/-- Stable insertion into a sorted list, by Python string order. -/
def insertSorted (x : String) : List String → List String
  | [] => [x]
  | y :: ys => if lexLe x.data y.data then x :: y :: ys else y :: insertSorted x ys

/-- Python `sorted` on a list of strings (stable insertion sort,
lexicographic by code point). -/
def pySorted : List String → List String
  | [] => []
  | x :: xs => insertSorted x (pySorted xs)

/-- Characters of the last `/`-separated component, from a reversed path. -/
def lastComponent : List Char → List Char
  | [] => []
  | c :: rest => if c = '/' then [] else c :: lastComponent rest

/-- Python `os.path.basename` for paths without a trailing slash. -/
def pyBasename (s : String) : String := ⟨(lastComponent s.data.reverse).reverse⟩

/-- Python `str.isdigit` (ASCII digits). -/
def pyIsDigit (s : String) : Bool := !s.data.isEmpty && s.data.all Char.isDigit

/-- Python `int(s)` for a digit string. -/
def decVal (s : String) : Nat := s.data.foldl (fun n c => n * 10 + (c.toNat - 48)) 0

/-- `os.path.join` for a relative second component. -/
def pathJoin (a b : String) : String := a ++ "/" ++ b

/-- Python `" ".join(cmd)`. -/
def joinSpace : List String → String
  | [] => ""
  | [x] => x
  | x :: y :: rest => x ++ " " ++ joinSpace (y :: rest)

/-- Finite model of the filesystem fragment the scripts touch: the existing
directories, the existing files, and the `os.listdir` listing of each
directory. -/
structure FS where
  dirs : List String
  files : List String
  children : List (String × List String)
deriving DecidableEq

/-- `os.path.isdir`. -/
def FS.isdir (fs : FS) (p : String) : Bool := fs.dirs.contains p

/-- Whether `p` is an existing regular file. -/
def FS.isfile (fs : FS) (p : String) : Bool := fs.files.contains p

/-- `os.path.exists`. -/
def FS.pathExists (fs : FS) (p : String) : Bool := fs.isdir p || fs.isfile p

/-- `os.listdir` (empty for a directory without a recorded listing). -/
def FS.listdir (fs : FS) (p : String) : List String :=
  match fs.children.find? (fun e => e.1 == p) with
  | some e => e.2
  | none => []

/-- `os.makedirs(p, exist_ok=True)` (intermediate parents not tracked). -/
def FS.makedirs (fs : FS) (p : String) : FS :=
  if fs.dirs.contains p then fs else { fs with dirs := fs.dirs ++ [p] }

/-- Creation of a file by opening it for writing. -/
def FS.addFile (fs : FS) (p : String) : FS :=
  if fs.files.contains p then fs else { fs with files := fs.files ++ [p] }

/-- Result of `subprocess.run(cmd, capture_output=True, text=True, check=True)`:
either the process ran and exited with a code (`check=True` turns a nonzero
code into `CalledProcessError`), or the binary was absent and
`FileNotFoundError` was raised. -/
inductive SubprocResult where
  | exited (code : Nat) (stdout stderr : String)
  | noBinary
deriving DecidableEq

/-- The ambient environment: what each external command does when run. -/
structure Env where
  run : List String → SubprocResult

/-- Outcome of one external-tool wrapper call (`run_snippy` / `run_spades`):
the returned boolean, the log lines emitted, the filesystem afterwards, and
the command lines passed to `subprocess.run`. -/
structure ToolOutcome where
  success : Bool
  logs : List String
  fs : FS
  cmds : List (List String)
deriving DecidableEq

namespace SnippyAnalysis

/-- The constructor arguments of `SnippyAnalysis`. -/
structure Config where
  base_path : String
  output_base_dir : String
  ref_genome_path : String
  cpu_cores : Nat
deriving DecidableEq

/-- `self.strains`. -/
def strains : List String :=
  ["Acinetobacterbaumannii", "Pseudomonasaeruginosa",
   "Staphylococcusaureus", "Klebsiellapneumoniae"]

/-- Samples appended for one strain directory in `get_samples`: directory
entries that are directories and start with `MCR_CVU_`, paired with the
strain. -/
def strainSamples (fs : FS) (cfg : Config) (strain : String) : List (String × String) :=
  let strain_path := pathJoin cfg.base_path strain
  if fs.pathExists strain_path = false then []
  else
    ((fs.listdir strain_path).filter
        (fun item => fs.isdir (pathJoin strain_path item) && pyStartsWith item "MCR_CVU_")).map
      (fun item => (strain, item))

/-- `SnippyAnalysis.get_samples`. -/
def get_samples (fs : FS) (cfg : Config) : List (String × String) :=
  if fs.pathExists cfg.base_path = false then []
  else strains.foldl (fun acc strain => acc ++ strainSamples fs cfg strain) []

/-- The `ILLUMINA_DATA` directory of a sample. -/
def samplePath (cfg : Config) (strain sample : String) : String :=
  pathJoin (pathJoin (pathJoin cfg.base_path strain) sample) "ILLUMINA_DATA"

/-- Full paths of `R1_trimmed.fastq` files, in listing order (the source's
`if`/`elif` suffix tests are mutually exclusive, hence two independent
filters). -/
def r1List (fs : FS) (cfg : Config) (strain sample : String) : List String :=
  ((fs.listdir (samplePath cfg strain sample)).filter
    (fun f => pyEndsWith f "R1_trimmed.fastq")).map (pathJoin (samplePath cfg strain sample))

/-- Full paths of `R2_trimmed.fastq` files, in listing order. -/
def r2List (fs : FS) (cfg : Config) (strain sample : String) : List String :=
  ((fs.listdir (samplePath cfg strain sample)).filter
    (fun f => pyEndsWith f "R2_trimmed.fastq")).map (pathJoin (samplePath cfg strain sample))

/-- `SnippyAnalysis.get_fastq_files`: `FileNotFoundError` when the sample
directory is missing or either read list is empty; otherwise the first
element of each sorted list. -/
def get_fastq_files (fs : FS) (cfg : Config) (strain sample : String) :
    Except String (String × String) :=
  if fs.pathExists (samplePath cfg strain sample) = false then
    Except.error ("Sample path does not exist: " ++ samplePath cfg strain sample)
  else
    let R1_files := pySorted (r1List fs cfg strain sample)
    let R2_files := pySorted (r2List fs cfg strain sample)
    if R1_files.isEmpty || R2_files.isEmpty then
      Except.error ("No matching FASTQ files found for: " ++ strain ++ "/" ++ sample)
    else
      Except.ok (R1_files.headD "", R2_files.headD "")

/-- The log line of the `FileNotFoundError` branch of `run_snippy`. -/
def notFoundMsg : String :=
  "Snippy command not found. Please ensure Snippy is properly installed"

/-- The first log line of the `CalledProcessError` branch of `run_snippy`. -/
def failedMsg (strain sample : String) : String :=
  "Snippy failed for: " ++ strain ++ "/" ++ sample

/-- The per-sample output directory of `run_snippy`. -/
def outputDir (cfg : Config) (strain sample : String) : String :=
  pathJoin (pathJoin cfg.output_base_dir strain) (sample ++ "_mysnps")

/-- The Snippy command line. -/
def snippyCmd (cfg : Config) (output_dir R1_file R2_file : String) : List String :=
  ["snippy", "--cpu", toString cfg.cpu_cores, "--outdir", output_dir,
   "--ref", cfg.ref_genome_path, "--R1", R1_file, "--R2", R2_file]

/-- `SnippyAnalysis.run_snippy`. -/
def run_snippy (env : Env) (fs : FS) (cfg : Config)
    (strain sample R1_file R2_file : String) : ToolOutcome :=
  let output_dir := outputDir cfg strain sample
  let fs1 := fs.makedirs output_dir
  let cmd := snippyCmd cfg output_dir R1_file R2_file
  let startLogs := ["Starting Snippy analysis: " ++ strain ++ "/" ++ sample,
                    "Command: " ++ joinSpace cmd]
  match env.run cmd with
  | .exited 0 _ _ =>
      ⟨true, startLogs ++ ["Snippy completed successfully: " ++ strain ++ "/" ++ sample,
                           "Output directory: " ++ output_dir], fs1, [cmd]⟩
  | .exited (c+1) _ stderr =>
      ⟨false, startLogs ++ [failedMsg strain sample,
                            "Return code: " ++ toString (c+1),
                            "Error message: " ++ stderr], fs1, [cmd]⟩
  | .noBinary => ⟨false, startLogs ++ [notFoundMsg], fs1, [cmd]⟩

/-- The version-probe command of `validate_inputs`. -/
def probeCmd : List String := ["snippy", "--version"]

/-- `SnippyAnalysis.validate_inputs`. -/
def validate_inputs (env : Env) (fs : FS) (cfg : Config) : Bool :=
  if fs.pathExists cfg.base_path = false then false
  else if fs.pathExists cfg.ref_genome_path = false then false
  else
    match env.run probeCmd with
    | .exited 0 _ _ => true
    | _ => false

/-- Mutable state of the per-sample loop in `run_analysis`. -/
structure LoopState where
  success_count : Nat
  failed_count : Nat
  fs : FS
  logs : List String
  cmds : List (List String)
deriving DecidableEq

/-- One iteration of the `for strain, sample in samples` loop of
`run_analysis`: resolve the FASTQ files, run Snippy, and count the outcome;
any exception from `get_fastq_files` is caught, logged and counted as a
failure. -/
def processSample (env : Env) (cfg : Config) (st : LoopState) (p : String × String) :
    LoopState :=
  match get_fastq_files st.fs cfg p.1 p.2 with
  | Except.error e =>
      { st with failed_count := st.failed_count + 1,
                logs := st.logs ++
                  ["Failed to process sample " ++ p.1 ++ "/" ++ p.2 ++ ": " ++ e] }
  | Except.ok (R1_file, R2_file) =>
      let t := run_snippy env st.fs cfg p.1 p.2 R1_file R2_file
      if t.success then
        { st with success_count := st.success_count + 1, fs := t.fs,
                  logs := st.logs ++ t.logs, cmds := st.cmds ++ t.cmds }
      else
        { st with failed_count := st.failed_count + 1, fs := t.fs,
                  logs := st.logs ++ t.logs, cmds := st.cmds ++ t.cmds }

/-- The observable result of `run_analysis`: the final counters when the
per-sample loop ran, whether `get_samples` was reached, the number of
samples discovered, the final filesystem, and the tool commands executed. -/
structure RunResult where
  summary : Option (Nat × Nat)
  enumerated : Bool
  total : Nat
  fs : FS
  cmds : List (List String)
deriving DecidableEq

/-- `SnippyAnalysis.run_analysis`. -/
def run_analysis (env : Env) (fs : FS) (cfg : Config) : RunResult :=
  if validate_inputs env fs cfg = false then ⟨none, false, 0, fs, []⟩
  else
    let samples := get_samples fs cfg
    if samples.isEmpty then ⟨none, true, samples.length, fs, []⟩
    else
      let fin := samples.foldl (processSample env cfg) ⟨0, 0, fs, [], []⟩
      ⟨some (fin.success_count, fin.failed_count), true, samples.length, fin.fs, fin.cmds⟩

/-- The `while True: input(...)` loop used for the base-path and
reference-genome prompts: consume stdin lines until one is nonempty and
exists; `none` when the script of input lines runs out. -/
def promptExistingPath (fs : FS) : List String → Option (String × List String)
  | [] => none
  | line :: rest =>
      let v := pyStrip line
      if v = "" then promptExistingPath fs rest
      else if fs.pathExists v then some (v, rest)
      else promptExistingPath fs rest

/-- `get_user_inputs` of `snippy_analysis.py`, driven by a list of stdin
lines: returns the configuration, the filesystem after `os.makedirs` on the
output directory, and the unconsumed input lines. -/
def get_user_inputs (fs : FS) (inputs : List String) :
    Option (Config × FS × List String) :=
  match promptExistingPath fs inputs with
  | none => none
  | some (base_path, rest1) =>
    match rest1 with
    | [] => none
    | outLine :: rest2 =>
      let entered := pyStrip outLine
      let output_dir := if entered = "" then "./snippy_results" else entered
      let fs1 := fs.makedirs output_dir
      match promptExistingPath fs1 rest2 with
      | none => none
      | some (ref_genome, rest3) =>
        match rest3 with
        | [] => none
        | cpuLine :: rest4 =>
          let cpu_input := pyStrip cpuLine
          let cpu_cores := if pyIsDigit cpu_input then decVal cpu_input else 16
          some (⟨base_path, output_dir, ref_genome, cpu_cores⟩, fs1, rest4)

end SnippyAnalysis

namespace SpadesAnalysis

/-- The constructor arguments of `SpadesAnalysis`. -/
structure Config where
  base_input_dir : String
  base_output_dir : String
  cpu_cores : Nat
deriving DecidableEq

/-- The `ILLUMINA_DATA` directory under one input directory. -/
def inputDirOf (cfg : Config) (directory : String) : String :=
  pathJoin (pathJoin cfg.base_input_dir directory) "ILLUMINA_DATA"

/-- The sample appended for one `R1_trimmed.fastq.gz` file in `get_samples`:
kept only when the matching `R2` file exists. -/
def sampleOf (fs : FS) (cfg : Config) (directory r1_file : String) : List String :=
  let r2_file := pyReplace r1_file "_R1_trimmed.fastq.gz" "_R2_trimmed.fastq.gz"
  let r2_path := pathJoin (inputDirOf cfg directory) r2_file
  if fs.pathExists r2_path then
    let sample_name := pyReplace r1_file "_R1_trimmed.fastq.gz" ""
    [pathJoin (pathJoin directory "ILLUMINA_DATA") sample_name]
  else []

/-- Samples appended for one input directory in `get_samples`. -/
def dirSamples (fs : FS) (cfg : Config) (directory : String) : List String :=
  if fs.pathExists (inputDirOf cfg directory) = false then []
  else
    let r1_files := (fs.listdir (inputDirOf cfg directory)).filter
      (fun f => pyEndsWith f "R1_trimmed.fastq.gz")
    r1_files.foldl (fun acc r1_file => acc ++ sampleOf fs cfg directory r1_file) []

/-- `SpadesAnalysis.get_samples`. -/
def get_samples (fs : FS) (cfg : Config) : List String :=
  if fs.pathExists cfg.base_input_dir = false then []
  else
    let directories := (fs.listdir cfg.base_input_dir).filter
      (fun d => fs.isdir (pathJoin cfg.base_input_dir d))
    directories.foldl (fun acc directory => acc ++ dirSamples fs cfg directory) []

/-- Result of `decompress_fastq`: the two uncompressed paths, the filesystem
afterwards, and the list of files written. -/
structure DecompResult where
  r1 : String
  r2 : String
  fs : FS
  written : List String
deriving DecidableEq

/-- `SpadesAnalysis.decompress_fastq`: an early no-op return when both
uncompressed targets exist; otherwise decompress R1 then R2, raising
`FileNotFoundError` when a compressed source is missing. -/
def decompress_fastq (fs : FS) (cfg : Config) (sample_path : String) :
    Except String DecompResult :=
  let r1_gz := pathJoin cfg.base_input_dir (sample_path ++ "_R1_trimmed.fastq.gz")
  let r2_gz := pathJoin cfg.base_input_dir (sample_path ++ "_R2_trimmed.fastq.gz")
  let r1_fastq := pathJoin cfg.base_input_dir (sample_path ++ "_R1_trimmed.fastq")
  let r2_fastq := pathJoin cfg.base_input_dir (sample_path ++ "_R2_trimmed.fastq")
  if fs.pathExists r1_fastq && fs.pathExists r2_fastq then
    Except.ok ⟨r1_fastq, r2_fastq, fs, []⟩
  else if fs.pathExists r1_gz = false then
    Except.error ("R1 file not found: " ++ r1_gz)
  else
    let fs1 := fs.addFile r1_fastq
    if fs1.pathExists r2_gz = false then
      Except.error ("R2 file not found: " ++ r2_gz)
    else
      Except.ok ⟨r1_fastq, r2_fastq, fs1.addFile r2_fastq, [r1_fastq, r2_fastq]⟩

/-- The log line of the `FileNotFoundError` branch of `run_spades`. -/
def notFoundMsg : String :=
  "SPAdes command not found. Please ensure SPAdes is properly installed"

/-- The first log line of the `CalledProcessError` branch of `run_spades`. -/
def failedMsg (sample_path : String) : String :=
  "SPAdes assembly failed for: " ++ sample_path

/-- The per-sample assembly directory of `run_spades`. -/
def assemblyDir (cfg : Config) (sample_path : String) : String :=
  pathJoin cfg.base_output_dir (pyBasename sample_path ++ "_assembly")

/-- The SPAdes command line. -/
def spadesCmd (cfg : Config) (assembly_dir r1_file r2_file : String) : List String :=
  ["spades.py", "--threads", toString cfg.cpu_cores, "-o", assembly_dir,
   "-1", r1_file, "-2", r2_file]

/-- `SpadesAnalysis.run_spades`. The source only constructs `assembly_dir`
(despite its comment) — there is no `os.makedirs` call here, so the
filesystem is unchanged by this wrapper. -/
def run_spades (env : Env) (fs : FS) (cfg : Config)
    (sample_path r1_file r2_file : String) : ToolOutcome :=
  let assembly_dir := assemblyDir cfg sample_path
  let cmd := spadesCmd cfg assembly_dir r1_file r2_file
  let startLogs := ["Starting SPAdes assembly: " ++ sample_path,
                    "Command: " ++ joinSpace cmd,
                    "Output directory: " ++ assembly_dir]
  match env.run cmd with
  | .exited 0 _ _ =>
      let contigs := pathJoin assembly_dir "contigs.fasta"
      ⟨true, startLogs ++ ["SPAdes assembly completed successfully: " ++ sample_path] ++
        (if fs.pathExists contigs then ["Contigs file generated: " ++ contigs]
         else ["Contigs file not found: " ++ contigs]), fs, [cmd]⟩
  | .exited (c+1) _ stderr =>
      ⟨false, startLogs ++ [failedMsg sample_path,
                            "Return code: " ++ toString (c+1),
                            "Error message: " ++ stderr], fs, [cmd]⟩
  | .noBinary => ⟨false, startLogs ++ [notFoundMsg], fs, [cmd]⟩

/-- The version-probe command of `validate_inputs`. -/
def probeCmd : List String := ["spades.py", "--version"]

/-- `SpadesAnalysis.validate_inputs`. -/
def validate_inputs (env : Env) (fs : FS) (cfg : Config) : Bool :=
  if fs.pathExists cfg.base_input_dir = false then false
  else
    match env.run probeCmd with
    | .exited 0 _ _ => true
    | _ => false

/-- Mutable state of the per-sample loop in `run_assembly`. -/
structure LoopState where
  success_count : Nat
  failed_count : Nat
  fs : FS
  logs : List String
  cmds : List (List String)
deriving DecidableEq

/-- One iteration of the `for sample_path in samples` loop of `run_assembly`:
decompress the FASTQ files, run SPAdes, and count the outcome; any exception
from `decompress_fastq` is caught, logged and counted as a failure. -/
def processSample (env : Env) (cfg : Config) (st : LoopState) (sample_path : String) :
    LoopState :=
  match decompress_fastq st.fs cfg sample_path with
  | Except.error e =>
      { st with failed_count := st.failed_count + 1,
                logs := st.logs ++
                  ["Processing sample: " ++ sample_path,
                   "Failed to process sample " ++ sample_path ++ ": " ++ e] }
  | Except.ok d =>
      let t := run_spades env d.fs cfg sample_path d.r1 d.r2
      if t.success then
        { st with success_count := st.success_count + 1, fs := t.fs,
                  logs := st.logs ++ ["Processing sample: " ++ sample_path] ++ t.logs,
                  cmds := st.cmds ++ t.cmds }
      else
        { st with failed_count := st.failed_count + 1, fs := t.fs,
                  logs := st.logs ++ ["Processing sample: " ++ sample_path] ++ t.logs,
                  cmds := st.cmds ++ t.cmds }

/-- The observable result of `run_assembly`. -/
structure RunResult where
  summary : Option (Nat × Nat)
  enumerated : Bool
  total : Nat
  fs : FS
  cmds : List (List String)
deriving DecidableEq

/-- `SpadesAnalysis.run_assembly`. -/
def run_assembly (env : Env) (fs : FS) (cfg : Config) : RunResult :=
  if validate_inputs env fs cfg = false then ⟨none, false, 0, fs, []⟩
  else
    let samples := get_samples fs cfg
    if samples.isEmpty then ⟨none, true, samples.length, fs, []⟩
    else
      let fin := samples.foldl (processSample env cfg) ⟨0, 0, fs, [], []⟩
      ⟨some (fin.success_count, fin.failed_count), true, samples.length, fin.fs, fin.cmds⟩

/-- `get_user_inputs` of `spades_analysis.py` (no reference-genome prompt),
driven by a list of stdin lines. -/
def get_user_inputs (fs : FS) (inputs : List String) :
    Option (Config × FS × List String) :=
  match SnippyAnalysis.promptExistingPath fs inputs with
  | none => none
  | some (input_dir, rest1) =>
    match rest1 with
    | [] => none
    | outLine :: rest2 =>
      let entered := pyStrip outLine
      let output_dir := if entered = "" then "./spades_assemblies" else entered
      let fs1 := fs.makedirs output_dir
      match rest2 with
      | [] => none
      | cpuLine :: rest3 =>
        let cpu_input := pyStrip cpuLine
        let cpu_cores := if pyIsDigit cpu_input then decVal cpu_input else 16
        some (⟨input_dir, output_dir, cpu_cores⟩, fs1, rest3)

end SpadesAnalysis

/-! Concrete environments and filesystems used to evaluate the drivers on
small inputs. -/

/-- An environment in which every subprocess call exits 0. -/
def envOK : Env := ⟨fun _ => .exited 0 "" ""⟩

/-- An environment in which every binary is missing. -/
def envNB : Env := ⟨fun _ => .noBinary⟩

/-- An environment in which every subprocess call exits 3 with stderr `boom`. -/
def envNZ : Env := ⟨fun _ => .exited 3 "" "boom"⟩

/-- The empty filesystem. -/
def fsEmpty : FS := ⟨[], [], []⟩

/-- A filesystem holding one complete Snippy sample
(`base/Acinetobacterbaumannii/MCR_CVU_1`, with one R1/R2 pair) and one
complete SPAdes sample (`pin/d1/ILLUMINA_DATA/X`, gz-compressed pair). -/
def fsW : FS :=
  ⟨["base", "base/Acinetobacterbaumannii", "base/Acinetobacterbaumannii/MCR_CVU_1",
    "base/Acinetobacterbaumannii/MCR_CVU_1/ILLUMINA_DATA",
    "pin", "pin/d1", "pin/d1/ILLUMINA_DATA"],
   ["ref.fa",
    "base/Acinetobacterbaumannii/MCR_CVU_1/ILLUMINA_DATA/s_R1_trimmed.fastq",
    "base/Acinetobacterbaumannii/MCR_CVU_1/ILLUMINA_DATA/s_R2_trimmed.fastq",
    "pin/d1/ILLUMINA_DATA/X_R1_trimmed.fastq.gz",
    "pin/d1/ILLUMINA_DATA/X_R2_trimmed.fastq.gz"],
   [("base/Acinetobacterbaumannii", ["MCR_CVU_1"]),
    ("base/Acinetobacterbaumannii/MCR_CVU_1/ILLUMINA_DATA",
     ["s_R1_trimmed.fastq", "s_R2_trimmed.fastq"]),
    ("pin", ["d1"]),
    ("pin/d1/ILLUMINA_DATA", ["X_R1_trimmed.fastq.gz"])]⟩

/-- Snippy configuration matching `fsW`. -/
def cfgSW : SnippyAnalysis.Config := ⟨"base", "out", "ref.fa", 4⟩

/-- SPAdes configuration matching `fsW`. -/
def cfgPW : SpadesAnalysis.Config := ⟨"pin", "pout", 4⟩

/-! General lemmas on the loop state and sample enumeration, shared by the
claim theorems. -/

theorem foldl_append_eq {α β : Type} (f : α → List β) :
    ∀ (l : List α) (acc : List β),
      l.foldl (fun a x => a ++ f x) acc = acc ++ (l.map f).flatten := by
  intro l
  induction l with
  | nil => intro acc; simp
  | cons x xs ih => intro acc; simp [ih]

theorem SnippyAnalysis.snippy_step_counts (env : Env) (cfg : Config)
    (st : LoopState) (p : String × String) :
    (processSample env cfg st p).success_count + (processSample env cfg st p).failed_count
      = st.success_count + st.failed_count + 1 := by
  unfold processSample
  split
  · dsimp only
    omega
  · dsimp only
    split <;> dsimp only <;> omega

theorem SnippyAnalysis.snippy_loop_counts (env : Env) (cfg : Config) :
    ∀ (samples : List (String × String)) (st : LoopState),
      (samples.foldl (processSample env cfg) st).success_count
          + (samples.foldl (processSample env cfg) st).failed_count
        = st.success_count + st.failed_count + samples.length := by
  intro samples
  induction samples with
  | nil => intro st; simp
  | cons p rest ih =>
      intro st
      simp only [List.foldl_cons, List.length_cons]
      rw [ih]
      have h := snippy_step_counts env cfg st p
      omega

theorem SpadesAnalysis.spades_step_counts (env : Env) (cfg : Config)
    (st : LoopState) (sp : String) :
    (processSample env cfg st sp).success_count + (processSample env cfg st sp).failed_count
      = st.success_count + st.failed_count + 1 := by
  unfold processSample
  split
  · dsimp only
    omega
  · dsimp only
    split <;> dsimp only <;> omega

theorem SpadesAnalysis.spades_loop_counts (env : Env) (cfg : Config) :
    ∀ (samples : List String) (st : LoopState),
      (samples.foldl (processSample env cfg) st).success_count
          + (samples.foldl (processSample env cfg) st).failed_count
        = st.success_count + st.failed_count + samples.length := by
  intro samples
  induction samples with
  | nil => intro st; simp
  | cons p rest ih =>
      intro st
      simp only [List.foldl_cons, List.length_cons]
      rw [ih]
      have h := spades_step_counts env cfg st p
      omega

/-- C1: for every run of either batch driver that passes validation and
discovers at least one sample, the final counters satisfy
`success_count + failed_count = len(samples)` where `samples` is the list
returned by `get_samples`: each discovered sample increments exactly one of
the two counters exactly once. -/
theorem counters_partition_samples (env : Env) (fs : FS)
    (cfgS : SnippyAnalysis.Config) (cfgP : SpadesAnalysis.Config) (s f s' f' : Nat) :
    ((SnippyAnalysis.run_analysis env fs cfgS).summary = some (s, f) →
        s + f = (SnippyAnalysis.get_samples fs cfgS).length)
      ∧ ((SpadesAnalysis.run_assembly env fs cfgP).summary = some (s', f') →
        s' + f' = (SpadesAnalysis.get_samples fs cfgP).length) := by
  constructor
  · intro h
    unfold SnippyAnalysis.run_analysis at h
    split at h
    · simp at h
    · dsimp only at h
      split at h
      · simp at h
      · simp only [Option.some.injEq, Prod.mk.injEq] at h
        obtain ⟨hs, hf⟩ := h
        subst hs
        subst hf
        simpa using SnippyAnalysis.snippy_loop_counts env cfgS (SnippyAnalysis.get_samples fs cfgS)
          ⟨0, 0, fs, [], []⟩
  · intro h
    unfold SpadesAnalysis.run_assembly at h
    split at h
    · simp at h
    · dsimp only at h
      split at h
      · simp at h
      · simp only [Option.some.injEq, Prod.mk.injEq] at h
        obtain ⟨hs, hf⟩ := h
        subst hs
        subst hf
        simpa using SpadesAnalysis.spades_loop_counts env cfgP (SpadesAnalysis.get_samples fs cfgP)
          ⟨0, 0, fs, [], []⟩

/-- Witness for C1: on the concrete one-sample worlds, both drivers report
`1 + 0` outcomes over one discovered sample. -/
theorem counters_partition_samples_witness :
    1 + 0 = (SnippyAnalysis.get_samples fsW cfgSW).length
      ∧ 1 + 0 = (SpadesAnalysis.get_samples fsW cfgPW).length :=
  ⟨(counters_partition_samples envOK fsW cfgSW cfgPW 1 0 1 0).1 (by decide),
   (counters_partition_samples envOK fsW cfgSW cfgPW 1 0 1 0).2 (by decide)⟩

/-- C3: an exception raised while resolving one sample's inputs
(`get_fastq_files` / `decompress_fastq`) is caught inside the per-sample
loop, that sample is counted as a failure, and the loop proceeds from the
updated state to every remaining sample in the list. -/
theorem resolve_error_caught_and_loop_continues (env : Env)
    (cfgS : SnippyAnalysis.Config) (cfgP : SpadesAnalysis.Config)
    (stS : SnippyAnalysis.LoopState) (stP : SpadesAnalysis.LoopState)
    (p : String × String) (sp eS eP : String)
    (restS : List (String × String)) (restP : List String) :
    (SnippyAnalysis.get_fastq_files stS.fs cfgS p.1 p.2 = Except.error eS →
      (p :: restS).foldl (SnippyAnalysis.processSample env cfgS) stS
        = restS.foldl (SnippyAnalysis.processSample env cfgS)
            { stS with failed_count := stS.failed_count + 1,
                       logs := stS.logs ++
                         ["Failed to process sample " ++ p.1 ++ "/" ++ p.2 ++ ": " ++ eS] })
    ∧ (SpadesAnalysis.decompress_fastq stP.fs cfgP sp = Except.error eP →
      (sp :: restP).foldl (SpadesAnalysis.processSample env cfgP) stP
        = restP.foldl (SpadesAnalysis.processSample env cfgP)
            { stP with failed_count := stP.failed_count + 1,
                       logs := stP.logs ++
                         ["Processing sample: " ++ sp,
                          "Failed to process sample " ++ sp ++ ": " ++ eP] }) := by
  constructor
  · intro h
    simp only [List.foldl_cons]
    congr 1
    unfold SnippyAnalysis.processSample
    rw [h]
  · intro h
    simp only [List.foldl_cons]
    congr 1
    unfold SpadesAnalysis.processSample
    rw [h]

/-- Witness for C3: on the empty filesystem the first sample's resolution
raises, the failure is recorded, and the loop still runs the remaining
sample. -/
theorem resolve_error_caught_and_loop_continues_witness :
    ([(("st", "sm") : String × String), ("st2", "sm2")].foldl
        (SnippyAnalysis.processSample envOK cfgSW) ⟨0, 0, fsEmpty, [], []⟩
      = [(("st2", "sm2") : String × String)].foldl
          (SnippyAnalysis.processSample envOK cfgSW)
          ⟨0, 1, fsEmpty,
           ["Failed to process sample st/sm: Sample path does not exist: base/st/sm/ILLUMINA_DATA"],
           []⟩)
    ∧ (["X", "Y"].foldl (SpadesAnalysis.processSample envOK cfgPW) ⟨0, 0, fsEmpty, [], []⟩
      = ["Y"].foldl (SpadesAnalysis.processSample envOK cfgPW)
          ⟨0, 1, fsEmpty,
           ["Processing sample: X",
            "Failed to process sample X: R1 file not found: pin/X_R1_trimmed.fastq.gz"],
           []⟩) :=
  ⟨(resolve_error_caught_and_loop_continues envOK cfgSW cfgPW ⟨0, 0, fsEmpty, [], []⟩
      ⟨0, 0, fsEmpty, [], []⟩ ("st", "sm") "X"
      "Sample path does not exist: base/st/sm/ILLUMINA_DATA"
      "R1 file not found: pin/X_R1_trimmed.fastq.gz"
      [("st2", "sm2")] ["Y"]).1 (by rfl),
   (resolve_error_caught_and_loop_continues envOK cfgSW cfgPW ⟨0, 0, fsEmpty, [], []⟩
      ⟨0, 0, fsEmpty, [], []⟩ ("st", "sm") "X"
      "Sample path does not exist: base/st/sm/ILLUMINA_DATA"
      "R1 file not found: pin/X_R1_trimmed.fastq.gz"
      [("st2", "sm2")] ["Y"]).2 (by rfl)⟩

/-- C5: when both uncompressed targets already exist, `decompress_fastq`
returns their paths with the filesystem unchanged and an empty list of
written files — no decompression work is performed. -/
theorem decompress_noop_when_targets_exist (fs : FS) (cfg : SpadesAnalysis.Config)
    (sample_path : String)
    (h1 : fs.pathExists (pathJoin cfg.base_input_dir (sample_path ++ "_R1_trimmed.fastq")) = true)
    (h2 : fs.pathExists (pathJoin cfg.base_input_dir (sample_path ++ "_R2_trimmed.fastq")) = true) :
    SpadesAnalysis.decompress_fastq fs cfg sample_path
      = Except.ok ⟨pathJoin cfg.base_input_dir (sample_path ++ "_R1_trimmed.fastq"),
                   pathJoin cfg.base_input_dir (sample_path ++ "_R2_trimmed.fastq"), fs, []⟩ := by
  unfold SpadesAnalysis.decompress_fastq
  simp [h1, h2]

/-- A filesystem already holding the uncompressed pair for sample `Y`. -/
def fsC5 : FS := ⟨[], ["pin/Y_R1_trimmed.fastq", "pin/Y_R2_trimmed.fastq"], []⟩

/-- Witness for C5: on `fsC5` the decompression step is a no-op. -/
theorem decompress_noop_when_targets_exist_witness :
    SpadesAnalysis.decompress_fastq fsC5 cfgPW "Y"
      = Except.ok ⟨pathJoin "pin" ("Y" ++ "_R1_trimmed.fastq"),
                   pathJoin "pin" ("Y" ++ "_R2_trimmed.fastq"), fsC5, []⟩ :=
  decompress_noop_when_targets_exist fsC5 cfgPW "Y" (by decide) (by decide)

/-- C6: when the tool's version probe raises `FileNotFoundError` or exits
nonzero, `validate_inputs` returns false and the run aborts before any
sample discovery: `get_samples` is never reached and no per-sample work or
tool invocation happens. -/
theorem probe_failure_aborts_before_discovery (env : Env) (fs : FS)
    (cfgS : SnippyAnalysis.Config) (cfgP : SpadesAnalysis.Config)
    (hS : env.run SnippyAnalysis.probeCmd = SubprocResult.noBinary
        ∨ ∃ c out err, env.run SnippyAnalysis.probeCmd = SubprocResult.exited (c+1) out err)
    (hP : env.run SpadesAnalysis.probeCmd = SubprocResult.noBinary
        ∨ ∃ c out err, env.run SpadesAnalysis.probeCmd = SubprocResult.exited (c+1) out err) :
    SnippyAnalysis.validate_inputs env fs cfgS = false
      ∧ SnippyAnalysis.run_analysis env fs cfgS = ⟨none, false, 0, fs, []⟩
      ∧ SpadesAnalysis.validate_inputs env fs cfgP = false
      ∧ SpadesAnalysis.run_assembly env fs cfgP = ⟨none, false, 0, fs, []⟩ := by
  have vS : SnippyAnalysis.validate_inputs env fs cfgS = false := by
    unfold SnippyAnalysis.validate_inputs
    split
    · rfl
    · split
      · rfl
      · rcases hS with h | ⟨c, out, err, h⟩ <;> (rw [h]; try rfl)
  have vP : SpadesAnalysis.validate_inputs env fs cfgP = false := by
    unfold SpadesAnalysis.validate_inputs
    split
    · rfl
    · rcases hP with h | ⟨c, out, err, h⟩ <;> (rw [h]; try rfl)
  refine ⟨vS, ?_, vP, ?_⟩
  · simp [SnippyAnalysis.run_analysis, vS]
  · simp [SpadesAnalysis.run_assembly, vP]

/-- Witness for C6: with every binary missing, both drivers abort without
discovering samples, even on a filesystem full of valid samples. -/
theorem probe_failure_aborts_before_discovery_witness :
    SnippyAnalysis.validate_inputs envNB fsW cfgSW = false
      ∧ SnippyAnalysis.run_analysis envNB fsW cfgSW = ⟨none, false, 0, fsW, []⟩
      ∧ SpadesAnalysis.validate_inputs envNB fsW cfgPW = false
      ∧ SpadesAnalysis.run_assembly envNB fsW cfgPW = ⟨none, false, 0, fsW, []⟩ :=
  probe_failure_aborts_before_discovery envNB fsW cfgSW cfgPW (Or.inl rfl) (Or.inl rfl)

theorem snippy_notFound_ne_failedMsg (strain sample : String) :
    SnippyAnalysis.notFoundMsg ≠ SnippyAnalysis.failedMsg strain sample := by
  intro h
  have h7 : SnippyAnalysis.notFoundMsg.data.get? 7
      = (SnippyAnalysis.failedMsg strain sample).data.get? 7 := by rw [h]
  have hl : (SnippyAnalysis.failedMsg strain sample).data.get? 7 = some 'f' := by
    show (("Snippy failed for: " ++ strain ++ "/" ++ sample).data).get? 7 = some 'f'
    simp only [String.data_append]
    rfl
  rw [hl] at h7
  exact absurd h7 (by decide)

theorem spades_notFound_ne_failedMsg (sample_path : String) :
    SpadesAnalysis.notFoundMsg ≠ SpadesAnalysis.failedMsg sample_path := by
  intro h
  have h7 : SpadesAnalysis.notFoundMsg.data.get? 7
      = (SpadesAnalysis.failedMsg sample_path).data.get? 7 := by rw [h]
  have hl : (SpadesAnalysis.failedMsg sample_path).data.get? 7 = some 'a' := by
    show (("SPAdes assembly failed for: " ++ sample_path).data).get? 7 = some 'a'
    simp only [String.data_append]
    rfl
  rw [hl] at h7
  exact absurd h7 (by decide)

/-- C4: each per-sample tool wrapper (`run_snippy` / `run_spades`) returns
true iff the subprocess exits with status zero; a nonzero exit yields false
with the captured stderr logged; a missing tool binary yields false with a
log message distinct from the nonzero-exit message. -/
theorem tool_result_classification (env : Env) (fs : FS)
    (cfgS : SnippyAnalysis.Config) (cfgP : SpadesAnalysis.Config)
    (strain sample R1_file R2_file sp r1 r2 : String) :
    ((SnippyAnalysis.run_snippy env fs cfgS strain sample R1_file R2_file).success = true
      ↔ ∃ out err, env.run (SnippyAnalysis.snippyCmd cfgS
            (SnippyAnalysis.outputDir cfgS strain sample) R1_file R2_file)
          = SubprocResult.exited 0 out err)
    ∧ (∀ c out err,
        env.run (SnippyAnalysis.snippyCmd cfgS
            (SnippyAnalysis.outputDir cfgS strain sample) R1_file R2_file)
            = SubprocResult.exited (c+1) out err →
          (SnippyAnalysis.run_snippy env fs cfgS strain sample R1_file R2_file).success = false
            ∧ SnippyAnalysis.failedMsg strain sample
                ∈ (SnippyAnalysis.run_snippy env fs cfgS strain sample R1_file R2_file).logs
            ∧ ("Error message: " ++ err)
                ∈ (SnippyAnalysis.run_snippy env fs cfgS strain sample R1_file R2_file).logs)
    ∧ (env.run (SnippyAnalysis.snippyCmd cfgS
          (SnippyAnalysis.outputDir cfgS strain sample) R1_file R2_file)
          = SubprocResult.noBinary →
        (SnippyAnalysis.run_snippy env fs cfgS strain sample R1_file R2_file).success = false
          ∧ SnippyAnalysis.notFoundMsg
              ∈ (SnippyAnalysis.run_snippy env fs cfgS strain sample R1_file R2_file).logs)
    ∧ SnippyAnalysis.notFoundMsg ≠ SnippyAnalysis.failedMsg strain sample
    ∧ ((SpadesAnalysis.run_spades env fs cfgP sp r1 r2).success = true
      ↔ ∃ out err, env.run (SpadesAnalysis.spadesCmd cfgP
            (SpadesAnalysis.assemblyDir cfgP sp) r1 r2)
          = SubprocResult.exited 0 out err)
    ∧ (∀ c out err,
        env.run (SpadesAnalysis.spadesCmd cfgP (SpadesAnalysis.assemblyDir cfgP sp) r1 r2)
            = SubprocResult.exited (c+1) out err →
          (SpadesAnalysis.run_spades env fs cfgP sp r1 r2).success = false
            ∧ SpadesAnalysis.failedMsg sp ∈ (SpadesAnalysis.run_spades env fs cfgP sp r1 r2).logs
            ∧ ("Error message: " ++ err) ∈ (SpadesAnalysis.run_spades env fs cfgP sp r1 r2).logs)
    ∧ (env.run (SpadesAnalysis.spadesCmd cfgP (SpadesAnalysis.assemblyDir cfgP sp) r1 r2)
          = SubprocResult.noBinary →
        (SpadesAnalysis.run_spades env fs cfgP sp r1 r2).success = false
          ∧ SpadesAnalysis.notFoundMsg ∈ (SpadesAnalysis.run_spades env fs cfgP sp r1 r2).logs)
    ∧ SpadesAnalysis.notFoundMsg ≠ SpadesAnalysis.failedMsg sp := by
  refine ⟨?_, ?_, ?_, snippy_notFound_ne_failedMsg strain sample, ?_, ?_, ?_,
    spades_notFound_ne_failedMsg sp⟩
  · rcases hrun : env.run (SnippyAnalysis.snippyCmd cfgS
        (SnippyAnalysis.outputDir cfgS strain sample) R1_file R2_file) with ⟨code, out, err⟩ | _
    · rcases code with _ | c
      · exact ⟨fun _ => ⟨out, err, rfl⟩, fun _ => by simp [SnippyAnalysis.run_snippy, hrun]⟩
      · simp [SnippyAnalysis.run_snippy, hrun]
    · simp [SnippyAnalysis.run_snippy, hrun]
  · intro c out err h
    simp [SnippyAnalysis.run_snippy, h]
  · intro h
    simp [SnippyAnalysis.run_snippy, h]
  · rcases hrun : env.run (SpadesAnalysis.spadesCmd cfgP
        (SpadesAnalysis.assemblyDir cfgP sp) r1 r2) with ⟨code, out, err⟩ | _
    · rcases code with _ | c
      · exact ⟨fun _ => ⟨out, err, rfl⟩, fun _ => by simp [SpadesAnalysis.run_spades, hrun]⟩
      · simp [SpadesAnalysis.run_spades, hrun]
    · simp [SpadesAnalysis.run_spades, hrun]
  · intro c out err h
    simp [SpadesAnalysis.run_spades, h]
  · intro h
    simp [SpadesAnalysis.run_spades, h]

/-- Witness for C4: a nonzero exit makes `run_snippy` fail with the stderr
logged, and a missing binary makes `run_spades` fail with the distinct
not-found message logged. -/
theorem tool_result_classification_witness :
    ((SnippyAnalysis.run_snippy envNZ fsEmpty cfgSW "st" "sm" "r1" "r2").success = false
        ∧ SnippyAnalysis.failedMsg "st" "sm"
            ∈ (SnippyAnalysis.run_snippy envNZ fsEmpty cfgSW "st" "sm" "r1" "r2").logs
        ∧ ("Error message: " ++ "boom")
            ∈ (SnippyAnalysis.run_snippy envNZ fsEmpty cfgSW "st" "sm" "r1" "r2").logs)
      ∧ ((SpadesAnalysis.run_spades envNB fsEmpty cfgPW "X" "r1" "r2").success = false
        ∧ SpadesAnalysis.notFoundMsg
            ∈ (SpadesAnalysis.run_spades envNB fsEmpty cfgPW "X" "r1" "r2").logs) :=
  ⟨(tool_result_classification envNZ fsEmpty cfgSW cfgPW "st" "sm" "r1" "r2" "X" "r1" "r2").2.1
      2 "" "boom" rfl,
   (tool_result_classification envNB fsEmpty cfgSW cfgPW "st" "sm" "r1" "r2" "X" "r1"
      "r2").2.2.2.2.2.2.1 rfl⟩

theorem SnippyAnalysis.strainSamples_mem (fs : FS) (cfg : SnippyAnalysis.Config)
    (st strain sample : String) :
    (strain, sample) ∈ SnippyAnalysis.strainSamples fs cfg st ↔
      st = strain ∧ fs.pathExists (pathJoin cfg.base_path st) = true
        ∧ sample ∈ fs.listdir (pathJoin cfg.base_path st)
        ∧ fs.isdir (pathJoin (pathJoin cfg.base_path st) sample) = true
        ∧ pyStartsWith sample "MCR_CVU_" = true := by
  unfold strainSamples
  dsimp only
  split
  · next h => simp [h]
  · next h =>
    have h' : fs.pathExists (pathJoin cfg.base_path st) = true := by simpa using h
    simp only [List.mem_map, List.mem_filter, Bool.and_eq_true, Prod.mk.injEq, h']
    constructor
    · rintro ⟨a, ⟨ha1, ha2, ha3⟩, rfl, rfl⟩
      exact ⟨rfl, trivial, ha1, ha2, ha3⟩
    · rintro ⟨rfl, -, h3, h4, h5⟩
      exact ⟨sample, ⟨h3, h4, h5⟩, rfl, rfl⟩

theorem SnippyAnalysis.snippy_samples_mem (fs : FS) (cfg : SnippyAnalysis.Config)
    (strain sample : String) :
    (strain, sample) ∈ SnippyAnalysis.get_samples fs cfg ↔
      fs.pathExists cfg.base_path = true
        ∧ strain ∈ SnippyAnalysis.strains
        ∧ fs.pathExists (pathJoin cfg.base_path strain) = true
        ∧ sample ∈ fs.listdir (pathJoin cfg.base_path strain)
        ∧ fs.isdir (pathJoin (pathJoin cfg.base_path strain) sample) = true
        ∧ pyStartsWith sample "MCR_CVU_" = true := by
  unfold get_samples
  split
  · next h => simp [h]
  · next h =>
    have h' : fs.pathExists cfg.base_path = true := by simpa using h
    rw [foldl_append_eq (SnippyAnalysis.strainSamples fs cfg) SnippyAnalysis.strains []]
    simp only [List.nil_append, List.mem_flatten, List.mem_map]
    constructor
    · rintro ⟨l, ⟨st, hst, rfl⟩, hmem⟩
      rw [SnippyAnalysis.strainSamples_mem] at hmem
      rcases hmem with ⟨rfl, h2, h3, h4, h5⟩
      exact ⟨h', hst, h2, h3, h4, h5⟩
    · rintro ⟨-, hst, h2, h3, h4, h5⟩
      exact ⟨SnippyAnalysis.strainSamples fs cfg strain, ⟨strain, hst, rfl⟩,
        (SnippyAnalysis.strainSamples_mem fs cfg strain strain sample).2 ⟨rfl, h2, h3, h4, h5⟩⟩

theorem SnippyAnalysis.run_snippy_cmds (env : Env) (fs : FS) (cfg : SnippyAnalysis.Config)
    (strain sample R1_file R2_file : String) :
    (SnippyAnalysis.run_snippy env fs cfg strain sample R1_file R2_file).cmds
      = [SnippyAnalysis.snippyCmd cfg (SnippyAnalysis.outputDir cfg strain sample)
          R1_file R2_file] := by
  unfold run_snippy
  dsimp only
  split <;> rfl

theorem SnippyAnalysis.snippy_step_cmds_eq (env : Env) (cfg : SnippyAnalysis.Config)
    (st : SnippyAnalysis.LoopState) (p : String × String) :
    (SnippyAnalysis.processSample env cfg st p).cmds = st.cmds
      ∨ ∃ R1 R2, (SnippyAnalysis.processSample env cfg st p).cmds
          = st.cmds ++ [SnippyAnalysis.snippyCmd cfg (SnippyAnalysis.outputDir cfg p.1 p.2) R1 R2] := by
  unfold processSample
  split
  · exact Or.inl rfl
  · next R1 R2 heq =>
    dsimp only
    split
    · exact Or.inr ⟨R1, R2, by rw [SnippyAnalysis.run_snippy_cmds]⟩
    · exact Or.inr ⟨R1, R2, by rw [SnippyAnalysis.run_snippy_cmds]⟩

theorem SnippyAnalysis.snippy_loop_cmds (env : Env) (cfg : SnippyAnalysis.Config) :
    ∀ (samples : List (String × String)) (st : SnippyAnalysis.LoopState) (c : List String),
      c ∈ (samples.foldl (SnippyAnalysis.processSample env cfg) st).cmds →
      c ∈ st.cmds ∨ ∃ p ∈ samples, ∃ R1 R2,
        c = SnippyAnalysis.snippyCmd cfg (SnippyAnalysis.outputDir cfg p.1 p.2) R1 R2 := by
  intro samples
  induction samples with
  | nil => intro st c hc; exact Or.inl hc
  | cons p rest ih =>
    intro st c hc
    rw [List.foldl_cons] at hc
    rcases ih (SnippyAnalysis.processSample env cfg st p) c hc with h | ⟨q, hq, R1, R2, he⟩
    · rcases SnippyAnalysis.snippy_step_cmds_eq env cfg st p with he | ⟨R1, R2, he⟩
      · rw [he] at h
        exact Or.inl h
      · rw [he] at h
        rcases List.mem_append.1 h with h1 | h1
        · exact Or.inl h1
        · simp only [List.mem_singleton] at h1
          exact Or.inr ⟨p, List.mem_cons_self p rest, R1, R2, h1⟩
    · exact Or.inr ⟨q, List.mem_cons_of_mem p hq, R1, R2, he⟩

theorem SnippyAnalysis.snippy_run_cmds (env : Env) (fs : FS) (cfg : SnippyAnalysis.Config)
    (c : List String) (hc : c ∈ (SnippyAnalysis.run_analysis env fs cfg).cmds) :
    ∃ p ∈ SnippyAnalysis.get_samples fs cfg, ∃ R1 R2,
      c = SnippyAnalysis.snippyCmd cfg (SnippyAnalysis.outputDir cfg p.1 p.2) R1 R2 := by
  unfold run_analysis at hc
  split at hc
  · simp at hc
  · dsimp only at hc
    split at hc
    · simp at hc
    · rcases SnippyAnalysis.snippy_loop_cmds env cfg (SnippyAnalysis.get_samples fs cfg)
        ⟨0, 0, fs, [], []⟩ c hc with h | h
      · simp at h
      · exact h

theorem SpadesAnalysis.sampleOf_mem (fs : FS) (cfg : SpadesAnalysis.Config)
    (directory r1_file p : String) :
    p ∈ SpadesAnalysis.sampleOf fs cfg directory r1_file ↔
      fs.pathExists (pathJoin (SpadesAnalysis.inputDirOf cfg directory)
          (pyReplace r1_file "_R1_trimmed.fastq.gz" "_R2_trimmed.fastq.gz")) = true
        ∧ p = pathJoin (pathJoin directory "ILLUMINA_DATA")
            (pyReplace r1_file "_R1_trimmed.fastq.gz" "") := by
  unfold sampleOf
  dsimp only
  split
  · next h => simp [h]
  · next h => simp [h]

theorem SpadesAnalysis.dirSamples_mem (fs : FS) (cfg : SpadesAnalysis.Config)
    (directory p : String) :
    p ∈ SpadesAnalysis.dirSamples fs cfg directory ↔
      fs.pathExists (SpadesAnalysis.inputDirOf cfg directory) = true
        ∧ ∃ r1_file ∈ fs.listdir (SpadesAnalysis.inputDirOf cfg directory),
            pyEndsWith r1_file "R1_trimmed.fastq.gz" = true
            ∧ fs.pathExists (pathJoin (SpadesAnalysis.inputDirOf cfg directory)
                (pyReplace r1_file "_R1_trimmed.fastq.gz" "_R2_trimmed.fastq.gz")) = true
            ∧ p = pathJoin (pathJoin directory "ILLUMINA_DATA")
                (pyReplace r1_file "_R1_trimmed.fastq.gz" "") := by
  unfold dirSamples
  split
  · next h => simp [h]
  · next h =>
    have h' : fs.pathExists (SpadesAnalysis.inputDirOf cfg directory) = true := by simpa using h
    dsimp only
    rw [foldl_append_eq (SpadesAnalysis.sampleOf fs cfg directory) _ []]
    simp only [List.nil_append, List.mem_flatten, List.mem_map, List.mem_filter, h', true_and]
    constructor
    · rintro ⟨l, ⟨r1, ⟨hr1, hr2⟩, rfl⟩, hmem⟩
      rw [SpadesAnalysis.sampleOf_mem] at hmem
      exact ⟨r1, hr1, hr2, hmem.1, hmem.2⟩
    · rintro ⟨r1, hr1, hr2, hr3, rfl⟩
      exact ⟨SpadesAnalysis.sampleOf fs cfg directory r1, ⟨r1, ⟨hr1, hr2⟩, rfl⟩,
        (SpadesAnalysis.sampleOf_mem fs cfg directory r1 _).2 ⟨hr3, rfl⟩⟩

theorem SpadesAnalysis.spades_samples_mem (fs : FS) (cfg : SpadesAnalysis.Config) (p : String) :
    p ∈ SpadesAnalysis.get_samples fs cfg ↔
      fs.pathExists cfg.base_input_dir = true
        ∧ ∃ directory ∈ fs.listdir cfg.base_input_dir,
            fs.isdir (pathJoin cfg.base_input_dir directory) = true
            ∧ fs.pathExists (SpadesAnalysis.inputDirOf cfg directory) = true
            ∧ ∃ r1_file ∈ fs.listdir (SpadesAnalysis.inputDirOf cfg directory),
                pyEndsWith r1_file "R1_trimmed.fastq.gz" = true
                ∧ fs.pathExists (pathJoin (SpadesAnalysis.inputDirOf cfg directory)
                    (pyReplace r1_file "_R1_trimmed.fastq.gz" "_R2_trimmed.fastq.gz")) = true
                ∧ p = pathJoin (pathJoin directory "ILLUMINA_DATA")
                    (pyReplace r1_file "_R1_trimmed.fastq.gz" "") := by
  unfold get_samples
  split
  · next h => simp [h]
  · next h =>
    have h' : fs.pathExists cfg.base_input_dir = true := by simpa using h
    dsimp only
    rw [foldl_append_eq (SpadesAnalysis.dirSamples fs cfg) _ []]
    simp only [List.nil_append, List.mem_flatten, List.mem_map, List.mem_filter, h', true_and]
    constructor
    · rintro ⟨l, ⟨d, ⟨hd1, hd2⟩, rfl⟩, hmem⟩
      rw [SpadesAnalysis.dirSamples_mem] at hmem
      exact ⟨d, hd1, hd2, hmem.1, hmem.2⟩
    · rintro ⟨d, hd1, hd2, hd3, hrest⟩
      exact ⟨SpadesAnalysis.dirSamples fs cfg d, ⟨d, ⟨hd1, hd2⟩, rfl⟩,
        (SpadesAnalysis.dirSamples_mem fs cfg d p).2 ⟨hd3, hrest⟩⟩

theorem SpadesAnalysis.run_spades_cmds (env : Env) (fs : FS) (cfg : SpadesAnalysis.Config)
    (sp r1 r2 : String) :
    (SpadesAnalysis.run_spades env fs cfg sp r1 r2).cmds
      = [SpadesAnalysis.spadesCmd cfg (SpadesAnalysis.assemblyDir cfg sp) r1 r2] := by
  unfold run_spades
  dsimp only
  split <;> rfl

theorem SpadesAnalysis.run_spades_fs (env : Env) (fs : FS) (cfg : SpadesAnalysis.Config)
    (sp r1 r2 : String) :
    (SpadesAnalysis.run_spades env fs cfg sp r1 r2).fs = fs := by
  unfold run_spades
  dsimp only
  split <;> rfl

theorem SpadesAnalysis.spades_step_cmds_eq (env : Env) (cfg : SpadesAnalysis.Config)
    (st : SpadesAnalysis.LoopState) (sp : String) :
    (SpadesAnalysis.processSample env cfg st sp).cmds = st.cmds
      ∨ ∃ r1 r2, (SpadesAnalysis.processSample env cfg st sp).cmds
          = st.cmds ++ [SpadesAnalysis.spadesCmd cfg (SpadesAnalysis.assemblyDir cfg sp) r1 r2] := by
  unfold processSample
  split
  · exact Or.inl rfl
  · next d heq =>
    dsimp only
    split
    · exact Or.inr ⟨d.r1, d.r2, by rw [SpadesAnalysis.run_spades_cmds]⟩
    · exact Or.inr ⟨d.r1, d.r2, by rw [SpadesAnalysis.run_spades_cmds]⟩

theorem SpadesAnalysis.spades_loop_cmds (env : Env) (cfg : SpadesAnalysis.Config) :
    ∀ (samples : List String) (st : SpadesAnalysis.LoopState) (c : List String),
      c ∈ (samples.foldl (SpadesAnalysis.processSample env cfg) st).cmds →
      c ∈ st.cmds ∨ ∃ sp ∈ samples, ∃ r1 r2,
        c = SpadesAnalysis.spadesCmd cfg (SpadesAnalysis.assemblyDir cfg sp) r1 r2 := by
  intro samples
  induction samples with
  | nil => intro st c hc; exact Or.inl hc
  | cons sp rest ih =>
    intro st c hc
    rw [List.foldl_cons] at hc
    rcases ih (SpadesAnalysis.processSample env cfg st sp) c hc with h | ⟨q, hq, r1, r2, he⟩
    · rcases SpadesAnalysis.spades_step_cmds_eq env cfg st sp with he | ⟨r1, r2, he⟩
      · rw [he] at h
        exact Or.inl h
      · rw [he] at h
        rcases List.mem_append.1 h with h1 | h1
        · exact Or.inl h1
        · simp only [List.mem_singleton] at h1
          exact Or.inr ⟨sp, List.mem_cons_self sp rest, r1, r2, h1⟩
    · exact Or.inr ⟨q, List.mem_cons_of_mem sp hq, r1, r2, he⟩

theorem SpadesAnalysis.spades_run_cmds (env : Env) (fs : FS) (cfg : SpadesAnalysis.Config)
    (c : List String) (hc : c ∈ (SpadesAnalysis.run_assembly env fs cfg).cmds) :
    ∃ sp ∈ SpadesAnalysis.get_samples fs cfg, ∃ r1 r2,
      c = SpadesAnalysis.spadesCmd cfg (SpadesAnalysis.assemblyDir cfg sp) r1 r2 := by
  unfold run_assembly at hc
  split at hc
  · simp at hc
  · dsimp only at hc
    split at hc
    · simp at hc
    · rcases SpadesAnalysis.spades_loop_cmds env cfg (SpadesAnalysis.get_samples fs cfg)
        ⟨0, 0, fs, [], []⟩ c hc with h | h
      · simp at h
      · exact h

/-- A filesystem holding a Snippy sample whose forward-read file is present
but whose reverse-read file is absent. -/
def fsC2 : FS :=
  ⟨["b2", "b2/Acinetobacterbaumannii", "b2/Acinetobacterbaumannii/MCR_CVU_7",
    "b2/Acinetobacterbaumannii/MCR_CVU_7/ILLUMINA_DATA"],
   ["ref.fa", "b2/Acinetobacterbaumannii/MCR_CVU_7/ILLUMINA_DATA/x_R1_trimmed.fastq"],
   [("b2/Acinetobacterbaumannii", ["MCR_CVU_7"]),
    ("b2/Acinetobacterbaumannii/MCR_CVU_7/ILLUMINA_DATA", ["x_R1_trimmed.fastq"])]⟩

/-- Snippy configuration matching `fsC2`. -/
def cfgC2 : SnippyAnalysis.Config := ⟨"b2", "out", "ref.fa", 4⟩

/-- Counterexample to C2: in the Snippy driver a sample whose forward-read
file is present and whose reverse-read file is absent is nonetheless
returned by `get_samples` — discovery filters only on directory names, so
the sample is not excluded from the discovered list. -/
theorem missing_R2_sample_still_discovered :
    fsC2.isfile
        "b2/Acinetobacterbaumannii/MCR_CVU_7/ILLUMINA_DATA/x_R1_trimmed.fastq" = true
      ∧ SnippyAnalysis.r1List fsC2 cfgC2 "Acinetobacterbaumannii" "MCR_CVU_7" ≠ []
      ∧ SnippyAnalysis.r2List fsC2 cfgC2 "Acinetobacterbaumannii" "MCR_CVU_7" = []
      ∧ ("Acinetobacterbaumannii", "MCR_CVU_7") ∈ SnippyAnalysis.get_samples fsC2 cfgC2 := by
  decide

/-- C2 amended: in the SPAdes driver a forward-read file with no matching
reverse-read file contributes no discovered sample (every discovered sample
has its reverse file present); in the Snippy driver such a sample is still
listed by `get_samples`, but resolving it raises, it is counted as a
failure, and no tool invocation is performed for it; in both drivers every
executed tool command originates from a discovered sample. -/
theorem missing_R2_no_invocation (env : Env) (fs : FS)
    (cfgS : SnippyAnalysis.Config) (cfgP : SpadesAnalysis.Config)
    (st : SnippyAnalysis.LoopState) (strain sample : String) (c : List String) :
    (∀ p ∈ SpadesAnalysis.get_samples fs cfgP, ∃ directory r1_file,
        fs.pathExists (pathJoin (SpadesAnalysis.inputDirOf cfgP directory)
            (pyReplace r1_file "_R1_trimmed.fastq.gz" "_R2_trimmed.fastq.gz")) = true
          ∧ p = pathJoin (pathJoin directory "ILLUMINA_DATA")
              (pyReplace r1_file "_R1_trimmed.fastq.gz" ""))
    ∧ (SnippyAnalysis.r2List st.fs cfgS strain sample = [] →
        (SnippyAnalysis.processSample env cfgS st (strain, sample)).cmds = st.cmds
          ∧ (SnippyAnalysis.processSample env cfgS st (strain, sample)).failed_count
              = st.failed_count + 1
          ∧ (SnippyAnalysis.processSample env cfgS st (strain, sample)).success_count
              = st.success_count)
    ∧ (c ∈ (SnippyAnalysis.run_analysis env fs cfgS).cmds →
        ∃ p ∈ SnippyAnalysis.get_samples fs cfgS, ∃ R1 R2,
          c = SnippyAnalysis.snippyCmd cfgS (SnippyAnalysis.outputDir cfgS p.1 p.2) R1 R2)
    ∧ (c ∈ (SpadesAnalysis.run_assembly env fs cfgP).cmds →
        ∃ sp ∈ SpadesAnalysis.get_samples fs cfgP, ∃ r1 r2,
          c = SpadesAnalysis.spadesCmd cfgP (SpadesAnalysis.assemblyDir cfgP sp) r1 r2) := by
  refine ⟨?_, ?_, fun hc => SnippyAnalysis.snippy_run_cmds env fs cfgS c hc,
    fun hc => SpadesAnalysis.spades_run_cmds env fs cfgP c hc⟩
  · intro p hp
    rw [SpadesAnalysis.spades_samples_mem] at hp
    rcases hp with ⟨-, d, -, -, -, r1, -, -, hr2, hp⟩
    exact ⟨d, r1, hr2, hp⟩
  · intro hr2
    have herr : ∃ e, SnippyAnalysis.get_fastq_files st.fs cfgS strain sample
        = Except.error e := by
      unfold SnippyAnalysis.get_fastq_files
      split
      · exact ⟨_, rfl⟩
      · dsimp only
        rw [hr2]
        simp only [pySorted, List.isEmpty_nil, Bool.or_true, if_true]
        exact ⟨_, rfl⟩
    rcases herr with ⟨e, he⟩
    unfold SnippyAnalysis.processSample
    dsimp only
    rw [he]
    exact ⟨rfl, rfl, rfl⟩

/-- Witness for C2 (amended): the discovered SPAdes sample of `fsW` carries
an existing reverse file, and processing the R2-less Snippy sample of
`fsC2` counts one failure and runs no command. -/
theorem missing_R2_no_invocation_witness :
    (∃ directory r1_file,
        fsW.pathExists (pathJoin (SpadesAnalysis.inputDirOf cfgPW directory)
            (pyReplace r1_file "_R1_trimmed.fastq.gz" "_R2_trimmed.fastq.gz")) = true
          ∧ "d1/ILLUMINA_DATA/X" = pathJoin (pathJoin directory "ILLUMINA_DATA")
              (pyReplace r1_file "_R1_trimmed.fastq.gz" ""))
      ∧ ((SnippyAnalysis.processSample envOK cfgC2 ⟨0, 0, fsC2, [], []⟩
            ("Acinetobacterbaumannii", "MCR_CVU_7")).cmds = []
        ∧ (SnippyAnalysis.processSample envOK cfgC2 ⟨0, 0, fsC2, [], []⟩
            ("Acinetobacterbaumannii", "MCR_CVU_7")).failed_count = 0 + 1
        ∧ (SnippyAnalysis.processSample envOK cfgC2 ⟨0, 0, fsC2, [], []⟩
            ("Acinetobacterbaumannii", "MCR_CVU_7")).success_count = 0) :=
  ⟨(missing_R2_no_invocation envOK fsW cfgC2 cfgPW ⟨0, 0, fsC2, [], []⟩
      "Acinetobacterbaumannii" "MCR_CVU_7" []).1 "d1/ILLUMINA_DATA/X" (by decide),
   (missing_R2_no_invocation envOK fsW cfgC2 cfgPW ⟨0, 0, fsC2, [], []⟩
      "Acinetobacterbaumannii" "MCR_CVU_7" []).2.1 (by decide)⟩

/-- C10: the Snippy driver discovers exactly the directory entries named
`MCR_CVU_*` that are directories lying directly under one of the four
hard-coded strain subdirectories of an existing root, and every executed
tool command originates from such a discovered sample; a sample directory
placed directly under the root or under any other subdirectory is never
discovered nor processed. -/
theorem snippy_discovery_characterization (env : Env) (fs : FS)
    (cfg : SnippyAnalysis.Config) (strain sample : String) (c : List String) :
    ((strain, sample) ∈ SnippyAnalysis.get_samples fs cfg ↔
      fs.pathExists cfg.base_path = true
        ∧ strain ∈ SnippyAnalysis.strains
        ∧ fs.pathExists (pathJoin cfg.base_path strain) = true
        ∧ sample ∈ fs.listdir (pathJoin cfg.base_path strain)
        ∧ fs.isdir (pathJoin (pathJoin cfg.base_path strain) sample) = true
        ∧ pyStartsWith sample "MCR_CVU_" = true)
    ∧ (c ∈ (SnippyAnalysis.run_analysis env fs cfg).cmds →
        ∃ p ∈ SnippyAnalysis.get_samples fs cfg, ∃ R1 R2,
          c = SnippyAnalysis.snippyCmd cfg (SnippyAnalysis.outputDir cfg p.1 p.2) R1 R2) :=
  ⟨SnippyAnalysis.snippy_samples_mem fs cfg strain sample,
   fun hc => SnippyAnalysis.snippy_run_cmds env fs cfg c hc⟩

/-- Witness for C10: the sample of `fsW` satisfies the six discovery
conditions and is discovered. -/
theorem snippy_discovery_characterization_witness :
    ("Acinetobacterbaumannii", "MCR_CVU_1") ∈ SnippyAnalysis.get_samples fsW cfgSW :=
  (snippy_discovery_characterization envOK fsW cfgSW "Acinetobacterbaumannii" "MCR_CVU_1"
    []).1.2 (by decide)

theorem insertSorted_ne_nil (x : String) : ∀ l : List String, insertSorted x l ≠ []
  | [] => by simp [insertSorted]
  | y :: ys => by unfold insertSorted; split <;> simp

theorem pySorted_eq_nil_iff (l : List String) : pySorted l = [] ↔ l = [] := by
  cases l with
  | nil => simp [pySorted]
  | cons x xs => simp [pySorted, insertSorted_ne_nil]

/-- A filesystem whose Snippy sample has two forward-read files and one
reverse-read file. -/
def fsC7 : FS :=
  ⟨["b7", "b7/Acinetobacterbaumannii", "b7/Acinetobacterbaumannii/MCR_CVU_9",
    "b7/Acinetobacterbaumannii/MCR_CVU_9/ILLUMINA_DATA"],
   ["ref.fa",
    "b7/Acinetobacterbaumannii/MCR_CVU_9/ILLUMINA_DATA/b_R1_trimmed.fastq",
    "b7/Acinetobacterbaumannii/MCR_CVU_9/ILLUMINA_DATA/a_R1_trimmed.fastq",
    "b7/Acinetobacterbaumannii/MCR_CVU_9/ILLUMINA_DATA/a_R2_trimmed.fastq"],
   [("b7/Acinetobacterbaumannii", ["MCR_CVU_9"]),
    ("b7/Acinetobacterbaumannii/MCR_CVU_9/ILLUMINA_DATA",
     ["b_R1_trimmed.fastq", "a_R1_trimmed.fastq", "a_R2_trimmed.fastq"])]⟩

/-- Snippy configuration matching `fsC7`. -/
def cfgC7 : SnippyAnalysis.Config := ⟨"b7", "out", "ref.fa", 4⟩

/-- Counterexample to C7: a sample that maps to two forward-read files (and
one reverse-read file) is not skipped with a reported error: resolution
succeeds with the lexicographically first candidates and a full run
processes the sample as a success. -/
theorem multi_R1_sample_not_skipped :
    (SnippyAnalysis.r1List fsC7 cfgC7 "Acinetobacterbaumannii" "MCR_CVU_9").length = 2
      ∧ SnippyAnalysis.get_fastq_files fsC7 cfgC7 "Acinetobacterbaumannii" "MCR_CVU_9"
          = Except.ok ("b7/Acinetobacterbaumannii/MCR_CVU_9/ILLUMINA_DATA/a_R1_trimmed.fastq",
                       "b7/Acinetobacterbaumannii/MCR_CVU_9/ILLUMINA_DATA/a_R2_trimmed.fastq")
      ∧ (SnippyAnalysis.run_analysis envOK fsC7 cfgC7).summary = some (1, 0) :=
  ⟨by decide, by rfl, by decide⟩

/-- C7 amended: `get_fastq_files` reports an error exactly when the sample
directory is missing or there is no forward or no reverse candidate file;
whenever it succeeds it resolves exactly one forward and one reverse file —
the lexicographically first of each candidate list — even when several
candidates are present. -/
theorem resolve_skips_iff_no_candidate (fs : FS) (cfg : SnippyAnalysis.Config)
    (strain sample : String) :
    ((SnippyAnalysis.get_fastq_files fs cfg strain sample).isOk = true ↔
      fs.pathExists (SnippyAnalysis.samplePath cfg strain sample) = true
        ∧ SnippyAnalysis.r1List fs cfg strain sample ≠ []
        ∧ SnippyAnalysis.r2List fs cfg strain sample ≠ [])
    ∧ (∀ R1 R2, SnippyAnalysis.get_fastq_files fs cfg strain sample = Except.ok (R1, R2) →
        R1 = (pySorted (SnippyAnalysis.r1List fs cfg strain sample)).headD ""
          ∧ R2 = (pySorted (SnippyAnalysis.r2List fs cfg strain sample)).headD "") := by
  unfold SnippyAnalysis.get_fastq_files
  dsimp only
  split
  · next h =>
    constructor
    · constructor
      · intro hk
        simp [Except.isOk, Except.toBool] at hk
      · rintro ⟨h1, -, -⟩
        rw [h] at h1
        cases h1
    · intro R1 R2 hok
      cases hok
  · next h =>
    have hp : fs.pathExists (SnippyAnalysis.samplePath cfg strain sample) = true := by
      simpa using h
    split
    · next h2 =>
      rw [Bool.or_eq_true, List.isEmpty_iff, List.isEmpty_iff,
        pySorted_eq_nil_iff, pySorted_eq_nil_iff] at h2
      constructor
      · constructor
        · intro hk
          simp [Except.isOk, Except.toBool] at hk
        · rintro ⟨-, hr1, hr2⟩
          rcases h2 with h2 | h2
          · exact (hr1 h2).elim
          · exact (hr2 h2).elim
      · intro R1 R2 hok
        cases hok
    · next h2 =>
      rw [Bool.or_eq_true, List.isEmpty_iff, List.isEmpty_iff,
        pySorted_eq_nil_iff, pySorted_eq_nil_iff] at h2
      push_neg at h2
      constructor
      · exact ⟨fun _ => ⟨hp, h2.1, h2.2⟩, fun _ => rfl⟩
      · intro R1 R2 hok
        simp only [Except.ok.injEq, Prod.mk.injEq] at hok
        exact ⟨hok.1.symm, hok.2.symm⟩

/-- Witness for C7 (amended): on the two-forward-file sample of `fsC7`,
resolution succeeds. -/
theorem resolve_skips_iff_no_candidate_witness :
    (SnippyAnalysis.get_fastq_files fsC7 cfgC7 "Acinetobacterbaumannii" "MCR_CVU_9").isOk
      = true :=
  (resolve_skips_iff_no_candidate fsC7 cfgC7 "Acinetobacterbaumannii" "MCR_CVU_9").1.2
    (by decide)

theorem FS.isdir_makedirs_self (fs : FS) (p : String) : (fs.makedirs p).isdir p = true := by
  unfold FS.makedirs FS.isdir
  split
  · next h => exact h
  · simp

theorem SnippyAnalysis.run_snippy_fs (env : Env) (fs : FS) (cfg : SnippyAnalysis.Config)
    (strain sample R1_file R2_file : String) :
    (SnippyAnalysis.run_snippy env fs cfg strain sample R1_file R2_file).fs
      = fs.makedirs (SnippyAnalysis.outputDir cfg strain sample) := by
  unfold run_snippy
  dsimp only
  split <;> rfl

/-- C8: the Snippy driver constructs the per-sample output directory from
the sample identifier and creates it (with `makedirs`) before the tool is
invoked, so it exists at the moment of invocation; the SPAdes driver,
contrary to its own comment and the spec, only constructs `assembly_dir`
and never creates it — `run_spades` leaves the filesystem unchanged while
still invoking the tool, as the concrete evaluation shows. -/
theorem output_dir_created_only_by_snippy (env : Env) (fs : FS)
    (cfgS : SnippyAnalysis.Config) (cfgP : SpadesAnalysis.Config)
    (strain sample R1 R2 sp r1 r2 : String) :
    ((SnippyAnalysis.run_snippy env fs cfgS strain sample R1 R2).fs.isdir
        (SnippyAnalysis.outputDir cfgS strain sample) = true
      ∧ (SnippyAnalysis.run_snippy env fs cfgS strain sample R1 R2).cmds
          = [SnippyAnalysis.snippyCmd cfgS (SnippyAnalysis.outputDir cfgS strain sample) R1 R2])
    ∧ ((SpadesAnalysis.run_spades env fs cfgP sp r1 r2).fs = fs
      ∧ (SpadesAnalysis.run_spades env fs cfgP sp r1 r2).cmds
          = [SpadesAnalysis.spadesCmd cfgP (SpadesAnalysis.assemblyDir cfgP sp) r1 r2])
    ∧ (fsW.pathExists (SpadesAnalysis.assemblyDir cfgPW "d1/ILLUMINA_DATA/X") = false
      ∧ (SpadesAnalysis.run_spades envOK fsW cfgPW "d1/ILLUMINA_DATA/X"
            "pin/d1/ILLUMINA_DATA/X_R1_trimmed.fastq"
            "pin/d1/ILLUMINA_DATA/X_R2_trimmed.fastq").fs.pathExists
          (SpadesAnalysis.assemblyDir cfgPW "d1/ILLUMINA_DATA/X") = false
      ∧ (SpadesAnalysis.run_spades envOK fsW cfgPW "d1/ILLUMINA_DATA/X"
            "pin/d1/ILLUMINA_DATA/X_R1_trimmed.fastq"
            "pin/d1/ILLUMINA_DATA/X_R2_trimmed.fastq").cmds.length = 1) := by
  refine ⟨⟨?_, SnippyAnalysis.run_snippy_cmds env fs cfgS strain sample R1 R2⟩,
    ⟨SpadesAnalysis.run_spades_fs env fs cfgP sp r1 r2,
     SpadesAnalysis.run_spades_cmds env fs cfgP sp r1 r2⟩,
    by decide, by decide, by decide⟩
  rw [SnippyAnalysis.run_snippy_fs]
  exact FS.isdir_makedirs_self fs (SnippyAnalysis.outputDir cfgS strain sample)

/-- Filesystem for the prompt counterexample: the root and the reference
file exist; the default output directory does not. -/
def fsC9 : FS := ⟨["root"], ["ref"], []⟩

/-- Counterexample to C9: the output-directory prompt accepts an empty
entry without any existence check, silently substituting a default path
that does not exist, and the worker-count prompt accepts the non-numeric
entry `abc`, silently substituting 16; exactly four input lines are
consumed, so neither prompt re-prompts. -/
theorem prompts_accept_invalid_entries :
    pyIsDigit "abc" = false
      ∧ fsC9.pathExists "./snippy_results" = false
      ∧ SnippyAnalysis.get_user_inputs fsC9 ["root", "", "ref", "abc"]
          = some (⟨"root", "./snippy_results", "ref", 16⟩,
                  ⟨["root", "./snippy_results"], ["ref"], []⟩, []) := by
  decide

theorem promptExistingPath_sound (fs : FS) :
    ∀ (inputs : List String) (v : String) (rest : List String),
      SnippyAnalysis.promptExistingPath fs inputs = some (v, rest) →
      v ≠ "" ∧ fs.pathExists v = true := by
  intro inputs
  induction inputs with
  | nil =>
      intro v rest h
      simp [SnippyAnalysis.promptExistingPath] at h
  | cons line tl ih =>
      intro v rest h
      unfold SnippyAnalysis.promptExistingPath at h
      dsimp only at h
      split at h
      · exact ih v rest h
      · next hne =>
        split at h
        · next hex =>
          simp only [Option.some.injEq, Prod.mk.injEq] at h
          rcases h with ⟨rfl, rfl⟩
          exact ⟨hne, hex⟩
        · exact ih v rest h

/-- C9 amended: the root-path and reference prompts validate existence and
re-prompt until a nonempty existing path is entered; the output-directory
and worker-count prompts consume exactly one line each and accept any
entry, substituting the default directory (created on the spot) for an
empty output entry and 16 for a non-numeric worker count; the SPAdes
script behaves the same without the reference prompt. -/
theorem prompt_validation_characterization (fs fs2 : FS)
    (inputs rest : List String) (v : String) (cfg : SnippyAnalysis.Config)
    (b o r c : String) (tail : List String) :
    (SnippyAnalysis.promptExistingPath fs inputs = some (v, rest) →
      v ≠ "" ∧ fs.pathExists v = true)
    ∧ (SnippyAnalysis.get_user_inputs fs inputs = some (cfg, fs2, rest) →
        cfg.base_path ≠ "" ∧ fs.pathExists cfg.base_path = true
          ∧ cfg.ref_genome_path ≠ ""
          ∧ fs2.pathExists cfg.ref_genome_path = true
          ∧ fs2 = fs.makedirs cfg.output_base_dir)
    ∧ (pyStrip b ≠ "" → fs.pathExists (pyStrip b) = true →
        pyStrip r ≠ "" →
        (fs.makedirs (if pyStrip o = "" then "./snippy_results" else pyStrip o)).pathExists
            (pyStrip r) = true →
        SnippyAnalysis.get_user_inputs fs (b :: o :: r :: c :: tail)
          = some (⟨pyStrip b,
                   if pyStrip o = "" then "./snippy_results" else pyStrip o,
                   pyStrip r,
                   if pyIsDigit (pyStrip c) then decVal (pyStrip c) else 16⟩,
                  fs.makedirs (if pyStrip o = "" then "./snippy_results" else pyStrip o),
                  tail))
    ∧ (pyStrip b ≠ "" → fs.pathExists (pyStrip b) = true →
        SpadesAnalysis.get_user_inputs fs (b :: o :: c :: tail)
          = some (⟨pyStrip b,
                   if pyStrip o = "" then "./spades_assemblies" else pyStrip o,
                   if pyIsDigit (pyStrip c) then decVal (pyStrip c) else 16⟩,
                  fs.makedirs (if pyStrip o = "" then "./spades_assemblies" else pyStrip o),
                  tail)) := by
  refine ⟨promptExistingPath_sound fs inputs v rest, ?_, ?_, ?_⟩
  · intro h
    unfold SnippyAnalysis.get_user_inputs at h
    rcases hb : SnippyAnalysis.promptExistingPath fs inputs with - | ⟨bp, rest1⟩
    · rw [hb] at h
      cases h
    · rw [hb] at h
      rcases rest1 with - | ⟨outLine, rest2⟩
      · cases h
      · dsimp only at h
        rcases hr : SnippyAnalysis.promptExistingPath
            (fs.makedirs (if pyStrip outLine = "" then "./snippy_results"
              else pyStrip outLine)) rest2 with - | ⟨rg, rest3⟩
        · rw [hr] at h
          cases h
        · rw [hr] at h
          rcases rest3 with - | ⟨cpuLine, rest4⟩
          · cases h
          · dsimp only at h
            simp only [Option.some.injEq, Prod.mk.injEq] at h
            rcases h with ⟨rfl, rfl, -⟩
            have hbs := promptExistingPath_sound fs inputs bp _ hb
            have hrs := promptExistingPath_sound _ rest2 rg _ hr
            exact ⟨hbs.1, hbs.2, hrs.1, hrs.2, rfl⟩
  · intro hb1 hb2 hr1 hr2
    unfold SnippyAnalysis.get_user_inputs
    rw [show SnippyAnalysis.promptExistingPath fs (b :: o :: r :: c :: tail)
        = some (pyStrip b, o :: r :: c :: tail) by
      unfold SnippyAnalysis.promptExistingPath
      dsimp only
      rw [if_neg hb1, if_pos hb2]]
    dsimp only
    rw [show SnippyAnalysis.promptExistingPath
        (fs.makedirs (if pyStrip o = "" then "./snippy_results" else pyStrip o))
        (r :: c :: tail) = some (pyStrip r, c :: tail) by
      unfold SnippyAnalysis.promptExistingPath
      dsimp only
      rw [if_neg hr1, if_pos hr2]]
  · intro hb1 hb2
    unfold SpadesAnalysis.get_user_inputs
    rw [show SnippyAnalysis.promptExistingPath fs (b :: o :: c :: tail)
        = some (pyStrip b, o :: c :: tail) by
      unfold SnippyAnalysis.promptExistingPath
      dsimp only
      rw [if_neg hb1, if_pos hb2]]

/-- Witness for C9 (amended): on `fsC9` with entries `root`, `odir`,
`ref`, `12`, the four prompts consume one line each and produce the parsed
configuration. -/
theorem prompt_validation_characterization_witness :
    SnippyAnalysis.get_user_inputs fsC9 ["root", "odir", "ref", "12"]
      = some (⟨pyStrip "root",
               if pyStrip "odir" = "" then "./snippy_results" else pyStrip "odir",
               pyStrip "ref",
               if pyIsDigit (pyStrip "12") then decVal (pyStrip "12") else 16⟩,
              fsC9.makedirs (if pyStrip "odir" = "" then "./snippy_results"
                else pyStrip "odir"),
              []) :=
  (prompt_validation_characterization fsC9 fsC9 [] [] "" cfgC2
    "root" "odir" "ref" "12" []).2.2.1 (by decide) (by decide) (by decide) (by decide)

end WGS
